import Mathlib

/-!
Verification of the sticker sub-protocol layer of libmpdclient.

The repository ships only the public header `include/mpd/sticker.h`; the
implementation file is not available, so every operation below is modelled
from the specification document, faithful to its words (command shapes,
argument validation, the "name=value" splitting rule, and the receive
drain protocol).
-/

/-- Modelled from the spec: the sticker parser (`mpd_parse_sticker`, whose
implementation is missing from the sources).  Scan the input for the first
occurrence of the character `=`.  If it occurs at position `k`, report the
name length `k` together with the value, the suffix of the input starting
at position `k + 1`.  If no `=` is present anywhere, fail (return `none`,
modelling the NULL return). -/
def mpd_parse_sticker : List Char → Option (Nat × List Char)
  | [] => none
  | c :: rest =>
    if c = '=' then
      some (0, rest)
    else
      match mpd_parse_sticker rest with
      | none => none
      | some (k, v) => some (k + 1, v)

/-- Modelled from the spec: the protocol's standard argument-quoting rule
for one character — embedded double quotes and backslashes are escaped
with a backslash, everything else passes through. -/
def escape_char (c : Char) : List Char :=
  if c = '"' ∨ c = '\\' then ['\\', c] else [c]

/-- Modelled from the spec: the protocol's standard argument-quoting rule,
delegated to the connection layer's shared command-building facility —
wrap the argument in double quotes and escape embedded double quotes and
backslashes. -/
def quote_arg (s : String) : String :=
  "\"" ++ String.mk (s.data.foldr (fun c acc => escape_char c ++ acc) []) ++ "\""

/-- A key/value pair of the underlying protocol's response stream.  The
same structure also carries a parsed sticker (name/value) back to the
caller, mirroring the reuse of `struct mpd_pair` in the header. -/
structure mpd_pair where
  name : String
  value : String
deriving DecidableEq, Repr

/-- Modelled from the spec: the out-of-band error channel of the
connection — success, transport/command-send failure, a protocol-shape
violation (a response row whose key is not "sticker" where it was
expected), or a malformed sticker value (no `=` separator). -/
inductive mpd_error where
  | success
  | sendFailure
  | unexpectedKey
  | malformed
deriving DecidableEq, Repr

/-- Modelled from the spec: the external connection abstraction, reduced
to what the sticker layer observes — whether the connection accepts
command transmission (`send_ok`), whether the response-finish handshake
succeeds (`finish_ok`), the command lines transmitted so far (`sent`),
the remaining rows of the current response (`pairs`), and the out-of-band
error state (`error`). -/
structure mpd_connection where
  send_ok : Bool
  finish_ok : Bool
  sent : List String
  pairs : List mpd_pair
  error : mpd_error
deriving DecidableEq, Repr

/-- Modelled from the spec: the connection layer's shared command-building
and transmission facility — build one command line from the verb and the
quoted arguments, and append it to the transmitted lines when the
connection accepts commands; report failure and leave the connection
untouched otherwise. -/
def mpd_send_command (conn : mpd_connection) (verb : String)
    (args : List String) : Bool × mpd_connection :=
  if conn.send_ok then
    (true, { conn with
             sent := conn.sent ++
               [verb ++ String.join (args.map (fun a => " " ++ quote_arg a))] })
  else
    (false, conn)

/-- Modelled from the spec: `mpd_send_sticker_set` — validate that `type`
and `uri` are non-empty, then encode `sticker set <type> <uri> <name>
<value>`. -/
def mpd_send_sticker_set (conn : mpd_connection) (type uri name value : String) :
    Bool × mpd_connection :=
  if type = "" ∨ uri = "" then
    (false, conn)
  else
    mpd_send_command conn "sticker set" [type, uri, name, value]

/-- Modelled from the spec: `mpd_send_sticker_delete` — validate that
`type` and `uri` are non-empty, then encode `sticker delete <type> <uri>
[<name>]`, where an empty `name` is omitted entirely (deleting all
stickers on the object), not sent as an empty-quoted argument. -/
def mpd_send_sticker_delete (conn : mpd_connection) (type uri name : String) :
    Bool × mpd_connection :=
  if type = "" ∨ uri = "" then
    (false, conn)
  else if name = "" then
    mpd_send_command conn "sticker delete" [type, uri]
  else
    mpd_send_command conn "sticker delete" [type, uri, name]

/-- Modelled from the spec: `mpd_send_sticker_get` — validate that `type`
and `uri` are non-empty, then encode `sticker get <type> <uri> <name>`. -/
def mpd_send_sticker_get (conn : mpd_connection) (type uri name : String) :
    Bool × mpd_connection :=
  if type = "" ∨ uri = "" then
    (false, conn)
  else
    mpd_send_command conn "sticker get" [type, uri, name]

/-- Modelled from the spec: `mpd_send_sticker_list` — validate that `type`
and `uri` are non-empty, then encode `sticker list <type> <uri>`. -/
def mpd_send_sticker_list (conn : mpd_connection) (type uri : String) :
    Bool × mpd_connection :=
  if type = "" ∨ uri = "" then
    (false, conn)
  else
    mpd_send_command conn "sticker list" [type, uri]

/-- Modelled from the spec: `mpd_send_sticker_find` — validate that `type`
is non-empty, then encode `sticker find <type> [<base_uri>] <name>`,
where an empty `base_uri` is omitted (search the whole type). -/
def mpd_send_sticker_find (conn : mpd_connection) (type base_uri name : String) :
    Bool × mpd_connection :=
  if type = "" then
    (false, conn)
  else if base_uri = "" then
    mpd_send_command conn "sticker find" [type, name]
  else
    mpd_send_command conn "sticker find" [type, base_uri, name]

/-- Modelled from the spec: `mpd_send_stickernames` — encode the bare verb
`stickernames`, which takes no arguments. -/
def mpd_send_stickernames (conn : mpd_connection) : Bool × mpd_connection :=
  mpd_send_command conn "stickernames" []

/-- Modelled from the spec: the connection's response-finish handshake
(`mpd_response_finish`) — consume the rest of the current response and
report the connection layer's terminal status. -/
def mpd_response_finish (conn : mpd_connection) : Bool × mpd_connection :=
  (conn.finish_ok, { conn with pairs := [] })

/-- Modelled from the spec: `mpd_run_sticker_set` — the shortcut for
`mpd_send_sticker_set` and `mpd_response_finish` (the header documents it
as exactly that composition); the finish step runs only when the send
succeeded. -/
def mpd_run_sticker_set (conn : mpd_connection) (type uri name value : String) :
    Bool × mpd_connection :=
  let r := mpd_send_sticker_set conn type uri name value
  if r.fst then mpd_response_finish r.snd else (false, r.snd)

/-- Modelled from the spec: `mpd_run_sticker_delete` — the shortcut for
`mpd_send_sticker_delete` and `mpd_response_finish`; the finish step runs
only when the send succeeded. -/
def mpd_run_sticker_delete (conn : mpd_connection) (type uri name : String) :
    Bool × mpd_connection :=
  let r := mpd_send_sticker_delete conn type uri name
  if r.fst then mpd_response_finish r.snd else (false, r.snd)

/-- Modelled from the spec: `mpd_recv_sticker` — pull one raw pair from
the connection's response stream.  Stream exhaustion yields "no more
items" (`none`) with no error.  A row whose key is not the literal
"sticker" is a protocol-shape violation: a caller-visible failure, never
silently skipped.  Otherwise the row's value is split by the sticker
parser; on parse failure the malformed-input error is propagated, and on
success a sticker pair owning the computed name and value is returned. -/
def mpd_recv_sticker (conn : mpd_connection) : Option mpd_pair × mpd_connection :=
  match conn.pairs with
  | [] => (none, conn)
  | p :: rest =>
    if p.name = "sticker" then
      match mpd_parse_sticker p.value.data with
      | none =>
        (none, { conn with pairs := rest, error := mpd_error.malformed })
      | some (k, v) =>
        (some ⟨String.mk (p.value.data.take k), String.mk v⟩,
         { conn with pairs := rest })
    else
      (none, { conn with pairs := rest, error := mpd_error.unexpectedKey })

/-- Modelled from the spec: draining a response by repeatedly invoking
`mpd_recv_sticker` until it reports "no more items" or an error.  The
fuel argument bounds the number of receive calls; one pair is consumed
per successful call, so fuel equal to the number of remaining rows is
exact. -/
def mpd_drain_stickers : Nat → mpd_connection → List mpd_pair × mpd_connection
  | 0, conn => ([], conn)
  | fuel + 1, conn =>
    match mpd_recv_sticker conn with
    | (none, c) => ([], c)
    | (some sp, c) =>
      let r := mpd_drain_stickers fuel c
      (sp :: r.fst, r.snd)

/-- C1: if the first occurrence of the separator character in the input is
at position k, then the sticker parser succeeds, reports name length k
(so the name is the substring of positions 0 up to k), and returns the
suffix of the input starting at position k + 1 as the value. -/
theorem C1_parse_splits_at_first_separator (l : List Char) (k : Nat)
    (hk : l.get? k = some '=') (hfirst : '=' ∉ l.take k) :
    mpd_parse_sticker l = some (k, l.drop (k + 1)) := by
  induction l generalizing k with
  | nil => simp [List.get?] at hk
  | cons c rest ih =>
    cases k with
    | zero =>
      simp [List.get?] at hk
      simp [mpd_parse_sticker, hk]
    | succ j =>
      have hc : c ≠ '=' := by
        intro h
        exact hfirst (by simp [List.take_succ_cons, h])
      have hj : rest.get? j = some '=' := by simpa [List.get?] using hk
      have hrest : '=' ∉ rest.take j := by
        intro h
        exact hfirst (by simp [List.take_succ_cons]; right; exact h)
      have := ih j hj hrest
      simp [mpd_parse_sticker, hc, this]

/-- C1 witness: parsing "a=b=c" splits only at the first separator,
yielding name length 1 (name "a") and value "b=c". -/
theorem C1_witness :
    "a=b=c".data.get? 1 = some '=' ∧ '=' ∉ "a=b=c".data.take 1 ∧
      mpd_parse_sticker "a=b=c".data = some (1, "a=b=c".data.drop 2) :=
  ⟨by decide, by decide,
    C1_parse_splits_at_first_separator "a=b=c".data 1 (by decide) (by decide)⟩

/-- C5: the sticker parser fails (returns no value) exactly on the inputs
that contain no separator character anywhere; equivalently it succeeds
if and only if the input contains at least one separator. -/
theorem C5_parse_fails_iff_no_separator (l : List Char) :
    mpd_parse_sticker l = none ↔ '=' ∉ l := by
  induction l with
  | nil => simp [mpd_parse_sticker]
  | cons c rest ih =>
    by_cases hc : c = '='
    · subst hc
      simp [mpd_parse_sticker]
    · cases h : mpd_parse_sticker rest with
      | none =>
        have hm : '=' ∉ rest := ih.mp h
        simp [mpd_parse_sticker, hc, h, hm, Ne.symm hc]
      | some kv =>
        have hm : '=' ∈ rest := by
          by_contra hn
          rw [ih.mpr hn] at h
          exact Option.noConfusion h
        simp [mpd_parse_sticker, hc, h, hm]

/-- C9: an input whose first character is the separator is accepted, not
rejected — parsing "=bar" succeeds with name length 0 (the empty name)
and value "bar". -/
theorem C9_empty_name_accepted :
    mpd_parse_sticker "=bar".data = some (0, "bar".data) := by decide

/-- C2: during a sticker-receive drain, a response row whose key is not
the literal "sticker" is reported to the caller as a protocol-shape
violation (no pair is returned and the unexpected-key error is raised on
the connection); the row is not silently skipped. -/
theorem C2_unexpected_key_is_failure (conn : mpd_connection) (p : mpd_pair)
    (rest : List mpd_pair) (hp : conn.pairs = p :: rest)
    (hname : p.name ≠ "sticker") :
    (mpd_recv_sticker conn).fst = none ∧
      (mpd_recv_sticker conn).snd.error = mpd_error.unexpectedKey := by
  simp [mpd_recv_sticker, hp, hname]

/-- C2 witness: receiving on a connection whose next row has key "file"
returns no pair and raises the unexpected-key error. -/
theorem C2_witness :
    (mpd_connection.mk true true [] [⟨"file", "x"⟩] mpd_error.success).pairs =
        [⟨"file", "x"⟩] ∧
      ("file" : String) ≠ "sticker" ∧
      (mpd_recv_sticker
          (mpd_connection.mk true true [] [⟨"file", "x"⟩] mpd_error.success)).fst =
        none ∧
      (mpd_recv_sticker
          (mpd_connection.mk true true [] [⟨"file", "x"⟩] mpd_error.success)).snd.error =
        mpd_error.unexpectedKey := by
  refine ⟨rfl, by decide, ?_⟩
  exact C2_unexpected_key_is_failure
    (mpd_connection.mk true true [] [⟨"file", "x"⟩] mpd_error.success)
    ⟨"file", "x"⟩ [] rfl (by decide)

/-- Receiving on a connection with no remaining response rows yields the
"no more items" sentinel and leaves the connection unchanged (in
particular no error is raised). -/
theorem recv_sticker_exhausted (conn : mpd_connection) (h : conn.pairs = []) :
    mpd_recv_sticker conn = (none, conn) := by
  simp [mpd_recv_sticker, h]

/-- Draining helper: on a connection whose remaining rows all carry the
key "sticker" and a parsable value, the drain with fuel equal to the row
count returns one sticker pair per row and ends with an empty row list,
the error state untouched. -/
theorem drain_stickers_complete (rows : List mpd_pair) :
    ∀ conn : mpd_connection, conn.pairs = rows →
      (∀ p ∈ rows, p.name = "sticker" ∧ mpd_parse_sticker p.value.data ≠ none) →
      (mpd_drain_stickers rows.length conn).fst.length = rows.length ∧
        (mpd_drain_stickers rows.length conn).snd.pairs = [] ∧
        (mpd_drain_stickers rows.length conn).snd.error = conn.error := by
  induction rows with
  | nil =>
    intro conn hp _
    simp [mpd_drain_stickers, hp]
  | cons p rest ih =>
    intro conn hp h
    obtain ⟨hname, hparse⟩ := h p (List.mem_cons_self p rest)
    obtain ⟨kv, hkv⟩ := Option.ne_none_iff_exists'.mp hparse
    obtain ⟨k, v⟩ := kv
    have hrest := ih { conn with pairs := rest, error := conn.error }
      (by simp) (fun q hq => h q (List.mem_cons_of_mem p hq))
    simp only [List.length_cons, mpd_drain_stickers, mpd_recv_sticker, hp,
      hname, hkv, if_pos rfl]
    simpa using hrest

/-- C6: draining a list response carrying N well-formed sticker rows via
repeated receive calls yields exactly N sticker pairs, after which the
row list is exhausted; the very next receive reports "no more items"
immediately, is not an error (the error state is untouched), and does
not change the connection. -/
theorem C6_drain_yields_all_then_end (conn : mpd_connection)
    (h : ∀ p ∈ conn.pairs,
      p.name = "sticker" ∧ mpd_parse_sticker p.value.data ≠ none) :
    (mpd_drain_stickers conn.pairs.length conn).fst.length = conn.pairs.length ∧
      (mpd_drain_stickers conn.pairs.length conn).snd.error = conn.error ∧
      mpd_recv_sticker (mpd_drain_stickers conn.pairs.length conn).snd =
        (none, (mpd_drain_stickers conn.pairs.length conn).snd) := by
  obtain ⟨h1, h2, h3⟩ := drain_stickers_complete conn.pairs conn rfl h
  exact ⟨h1, h3, recv_sticker_exhausted _ h2⟩

/-- C6 witness: a response of two sticker rows drains to exactly two
pairs, keeps the error state clean, and a further receive yields only
the "no more items" sentinel immediately. -/
theorem C6_witness :
    (∀ p ∈ (mpd_connection.mk true true []
        [⟨"sticker", "a=1"⟩, ⟨"sticker", "b=2"⟩] mpd_error.success).pairs,
      p.name = "sticker" ∧ mpd_parse_sticker p.value.data ≠ none) ∧
    ((mpd_drain_stickers 2 (mpd_connection.mk true true []
        [⟨"sticker", "a=1"⟩, ⟨"sticker", "b=2"⟩] mpd_error.success)).fst.length = 2 ∧
      (mpd_drain_stickers 2 (mpd_connection.mk true true []
        [⟨"sticker", "a=1"⟩, ⟨"sticker", "b=2"⟩] mpd_error.success)).snd.error =
        mpd_error.success ∧
      mpd_recv_sticker (mpd_drain_stickers 2 (mpd_connection.mk true true []
        [⟨"sticker", "a=1"⟩, ⟨"sticker", "b=2"⟩] mpd_error.success)).snd =
        (none, (mpd_drain_stickers 2 (mpd_connection.mk true true []
          [⟨"sticker", "a=1"⟩, ⟨"sticker", "b=2"⟩] mpd_error.success)).snd)) :=
  ⟨by decide,
    C6_drain_yields_all_then_end
      (mpd_connection.mk true true []
        [⟨"sticker", "a=1"⟩, ⟨"sticker", "b=2"⟩] mpd_error.success)
      (by decide)⟩

/-- C10: the receive primitive signals both normal end-of-response and a
failure with the same absent return value, so the return value alone
cannot distinguish them; only the connection's out-of-band error state
tells them apart, as shown on an exhausted connection versus one whose
next row has a foreign key. -/
theorem C10_none_is_ambiguous :
    (mpd_recv_sticker (mpd_connection.mk true true [] [] mpd_error.success)).fst =
        none ∧
      (mpd_recv_sticker (mpd_connection.mk true true []
          [⟨"playlist", "x"⟩] mpd_error.success)).fst = none ∧
      (mpd_recv_sticker
          (mpd_connection.mk true true [] [] mpd_error.success)).snd.error =
        mpd_error.success ∧
      (mpd_recv_sticker (mpd_connection.mk true true []
          [⟨"playlist", "x"⟩] mpd_error.success)).snd.error =
        mpd_error.unexpectedKey := by
  decide

/-- C3: every encode-and-send sticker operation taking the object
reference validates that the type and the uri are non-empty before
encoding; with an empty required argument it returns failure immediately
and leaves the connection untouched (no command line is built or sent,
no state changes).  The find operation's base uri is optional, so for it
only the type is required. -/
theorem C3_empty_required_argument_rejected (conn : mpd_connection)
    (type uri name value : String) (h : type = "" ∨ uri = "") :
    mpd_send_sticker_set conn type uri name value = (false, conn) ∧
      mpd_send_sticker_delete conn type uri name = (false, conn) ∧
      mpd_send_sticker_get conn type uri name = (false, conn) ∧
      mpd_send_sticker_list conn type uri = (false, conn) ∧
      (type = "" → mpd_send_sticker_find conn type uri name = (false, conn)) := by
  refine ⟨?_, ?_, ?_, ?_, ?_⟩
  · simp [mpd_send_sticker_set, h]
  · simp [mpd_send_sticker_delete, h]
  · simp [mpd_send_sticker_get, h]
  · simp [mpd_send_sticker_list, h]
  · intro ht
    simp [mpd_send_sticker_find, ht]

/-- C3 witness: with an empty uri (and non-empty everything else), every
operation fails immediately on a concrete connection, which is returned
unchanged. -/
theorem C3_witness :
    (("song" : String) = "" ∨ ("" : String) = "") ∧
      (mpd_send_sticker_set (mpd_connection.mk true true [] [] mpd_error.success)
          "song" "" "n" "v" =
        (false, mpd_connection.mk true true [] [] mpd_error.success) ∧
      mpd_send_sticker_delete (mpd_connection.mk true true [] [] mpd_error.success)
          "song" "" "n" =
        (false, mpd_connection.mk true true [] [] mpd_error.success) ∧
      mpd_send_sticker_get (mpd_connection.mk true true [] [] mpd_error.success)
          "song" "" "n" =
        (false, mpd_connection.mk true true [] [] mpd_error.success) ∧
      mpd_send_sticker_list (mpd_connection.mk true true [] [] mpd_error.success)
          "song" "" =
        (false, mpd_connection.mk true true [] [] mpd_error.success) ∧
      (("song" : String) = "" →
        mpd_send_sticker_find (mpd_connection.mk true true [] [] mpd_error.success)
            "song" "" "n" =
          (false, mpd_connection.mk true true [] [] mpd_error.success))) :=
  ⟨Or.inr rfl,
    C3_empty_required_argument_rejected
      (mpd_connection.mk true true [] [] mpd_error.success)
      "song" "" "n" "v" (Or.inr rfl)⟩

/-- Two space-prefixed arguments joined after a verb produce the verb
followed by the space-separated arguments. -/
theorem verb_join_two (v a b : String) :
    v ++ String.join [" " ++ a, " " ++ b] = v ++ " " ++ a ++ " " ++ b := by
  apply String.ext
  simp [String.join, String.data_append]

/-- Three space-prefixed arguments joined after a verb produce the verb
followed by the space-separated arguments. -/
theorem verb_join_three (v a b c : String) :
    v ++ String.join [" " ++ a, " " ++ b, " " ++ c] =
      v ++ " " ++ a ++ " " ++ b ++ " " ++ c := by
  apply String.ext
  simp [String.join, String.data_append]

/-- Four space-prefixed arguments joined after a verb produce the verb
followed by the space-separated arguments. -/
theorem verb_join_four (v a b c d : String) :
    v ++ String.join [" " ++ a, " " ++ b, " " ++ c, " " ++ d] =
      v ++ " " ++ a ++ " " ++ b ++ " " ++ c ++ " " ++ d := by
  apply String.ext
  simp [String.join, String.data_append]

/-- C4: deleting with an empty sticker name omits the name argument
entirely: the command line sent is `sticker delete <type> <uri>` with
exactly two quoted arguments, not a trailing empty-quoted argument. -/
theorem C4_delete_empty_name_omits_argument (conn : mpd_connection)
    (type uri : String) (ht : type ≠ "") (hu : uri ≠ "")
    (hs : conn.send_ok = true) :
    (mpd_send_sticker_delete conn type uri "").fst = true ∧
      (mpd_send_sticker_delete conn type uri "").snd.sent =
        conn.sent ++
          ["sticker delete" ++ " " ++ quote_arg type ++ " " ++ quote_arg uri] := by
  have hline := verb_join_two "sticker delete" (quote_arg type) (quote_arg uri)
  constructor
  · simp [mpd_send_sticker_delete, mpd_send_command, ht, hu, hs]
  · simp [mpd_send_sticker_delete, mpd_send_command, ht, hu, hs, hline]

/-- C4 witness: deleting with empty name on a concrete connection sends
`sticker delete "song" "a.mp3"` — two quoted arguments and no
empty-quoted third argument. -/
theorem C4_witness :
    ("song" : String) ≠ "" ∧ ("a.mp3" : String) ≠ "" ∧
      (mpd_connection.mk true true [] [] mpd_error.success).send_ok = true ∧
      ((mpd_send_sticker_delete (mpd_connection.mk true true [] [] mpd_error.success)
          "song" "a.mp3" "").fst = true ∧
      (mpd_send_sticker_delete (mpd_connection.mk true true [] [] mpd_error.success)
          "song" "a.mp3" "").snd.sent =
        [] ++ ["sticker delete" ++ " " ++ quote_arg "song" ++ " " ++
          quote_arg "a.mp3"]) :=
  ⟨by decide, by decide, rfl,
    C4_delete_empty_name_omits_argument
      (mpd_connection.mk true true [] [] mpd_error.success)
      "song" "a.mp3" (by decide) (by decide) rfl⟩

/-- C7: the run variants compose the send variant with the response-finish
primitive, and for all arguments and connection states the boolean result
of the run variant equals the logical AND of the send's success and the
response-finish's success on the post-send connection, for set and for
delete alike. -/
theorem C7_run_is_send_and_finish (conn : mpd_connection)
    (type uri name value : String) :
    (mpd_run_sticker_set conn type uri name value).fst =
      ((mpd_send_sticker_set conn type uri name value).fst &&
        (mpd_response_finish
          (mpd_send_sticker_set conn type uri name value).snd).fst) ∧
    (mpd_run_sticker_delete conn type uri name).fst =
      ((mpd_send_sticker_delete conn type uri name).fst &&
        (mpd_response_finish
          (mpd_send_sticker_delete conn type uri name).snd).fst) := by
  constructor
  · cases h : (mpd_send_sticker_set conn type uri name value).fst <;>
      simp [mpd_run_sticker_set, mpd_response_finish, h]
  · cases h : (mpd_send_sticker_delete conn type uri name).fst <;>
      simp [mpd_run_sticker_delete, mpd_response_finish, h]

/-- C8: the set operation emits exactly the command line
`sticker set <type> <uri> <name> <value>` with each of the four arguments
quoted by the protocol's standard quoting rule, and the list-names
operation emits exactly the bare verb `stickernames`; the quoting rule
wraps the argument in double quotes and escapes embedded double quotes
and backslashes. -/
theorem C8_set_and_stickernames_shapes (conn : mpd_connection)
    (type uri name value : String) (ht : type ≠ "") (hu : uri ≠ "")
    (hs : conn.send_ok = true) :
    (mpd_send_sticker_set conn type uri name value).snd.sent =
      conn.sent ++
        ["sticker set" ++ " " ++ quote_arg type ++ " " ++ quote_arg uri ++
          " " ++ quote_arg name ++ " " ++ quote_arg value] ∧
    (mpd_send_stickernames conn).snd.sent = conn.sent ++ ["stickernames"] ∧
    quote_arg "a\"b\\c" = "\"a\\\"b\\\\c\"" := by
  have hline := verb_join_four "sticker set" (quote_arg type) (quote_arg uri)
    (quote_arg name) (quote_arg value)
  refine ⟨?_, ?_, by decide⟩
  · simp [mpd_send_sticker_set, mpd_send_command, ht, hu, hs, hline]
  · simp [mpd_send_stickernames, mpd_send_command, hs, String.join]

/-- C8 witness: on a concrete connection, set sends
`sticker set "song" "a.mp3" "rating" "5"` and list-names sends the bare
verb `stickernames`. -/
theorem C8_witness :
    ("song" : String) ≠ "" ∧ ("a.mp3" : String) ≠ "" ∧
      (mpd_connection.mk true true [] [] mpd_error.success).send_ok = true ∧
      ((mpd_send_sticker_set (mpd_connection.mk true true [] [] mpd_error.success)
          "song" "a.mp3" "rating" "5").snd.sent =
        [] ++ ["sticker set" ++ " " ++ quote_arg "song" ++ " " ++
          quote_arg "a.mp3" ++ " " ++ quote_arg "rating" ++ " " ++
          quote_arg "5"] ∧
      (mpd_send_stickernames
          (mpd_connection.mk true true [] [] mpd_error.success)).snd.sent =
        [] ++ ["stickernames"] ∧
      quote_arg "a\"b\\c" = "\"a\\\"b\\\\c\"") :=
  ⟨by decide, by decide, rfl,
    C8_set_and_stickernames_shapes
      (mpd_connection.mk true true [] [] mpd_error.success)
      "song" "a.mp3" "rating" "5" (by decide) (by decide) rfl⟩
